import Mathlib

/-!
Verification development for the client-side data layer of the
"Lazos de Amor" point-of-sale web app (`src/app.js`).

The JavaScript source is shallowly embedded as follows:
- plain JS records (menu items, waiters) become Lean structures whose
  optional / possibly-absent fields are `Option`s, and whose possibly
  ill-typed fields (the `images` field) get a dedicated sum type capturing
  the three cases the code distinguishes (absent, array, non-array value);
- JS truthiness tests used by the code (`item.img && ...`,
  `!item.images`, `item.category && ...`) become explicit boolean
  functions on those types (`undefined`/`null`/`""` are falsy, every
  array — including the empty one — is truthy);
- `fetch` is modelled by oracles: an attempt function `Nat → Option R`
  for the retried bulk save (the n-th request either yields a parsed
  body or fails), and a per-table `Except`-valued function for the
  bootstrap loaders; an HTTP response for the single-shot operations is
  `Option (status × body)` with `none` a transport failure;
- `Intl.DateTimeFormat` with an explicit `timeZone` option is modelled
  as a calendar conversion from epoch milliseconds using a fixed
  UTC-offset timezone (America/Bogota has no DST), where the formatter
  falls back to the ambient local timezone exactly when no explicit
  `timeZone` option is supplied;
- `Utils.generateId()` (current time + randomness) is not deterministic,
  so the seeding routine is parameterized by the identifiers it would
  generate; no migration/seeding decision inspects them.

Effects are made explicit: the retried save returns a trace (number of
HTTP requests issued, the delays slept between attempts, and the final
outcome), and the bootstrap routines return the list of tables fetched
resp. the list of `API.save` calls issued alongside the new state.
-/

/-! ## Data model (menu items, waiters) -/

/-- The `images` field of a stored menu item as the migration code sees it:
absent (`undefined`), a JS array of image references, or some other
(non-array) JS value of which only its truthiness matters to the code. -/
inductive JsImages where
  | undef : JsImages
  | arr : List String → JsImages
  | nonArr : Bool → JsImages
deriving DecidableEq, Repr

/-- JS truthiness of the `images` field: `undefined` is falsy, every array
(including `[]`) is truthy, and a non-array value carries its own
truthiness. -/
def truthyImages : JsImages → Bool
  | .undef => false
  | .arr _ => true
  | .nonArr t => t

/-- `Array.isArray` on the `images` field. -/
def isArrImages : JsImages → Bool
  | .arr _ => true
  | _ => false

/-- JS truthiness of a possibly-absent string field: `undefined` and the
empty string are falsy. -/
def truthyStr : Option String → Bool
  | none => false
  | some s => !(s == "")

/-- A `menu_items` record with the fields read or written anywhere in
`src/app.js`: the migration logic touches `cost`, `img`, `images` and
`category`; the seed data additionally populates `id`, `name`,
`description`, `price`, `image` and `available`. -/
structure MenuRec where
  id : String := ""
  name : String := ""
  description : String := ""
  cost : Option Int := none
  price : Option Int := none
  category : Option String := none
  image : Option String := none
  img : Option String := none
  images : JsImages := .undef
  available : Bool := true
deriving DecidableEq, Repr

/-- A `waiters` record. -/
structure Waiter where
  id : String := ""
  name : String := ""
  active : Bool := true
deriving DecidableEq, Repr

/-! ## String helpers modelling `String.prototype` methods -/

/-- `pat.isPrefixOf`-based containment on character lists, modelling
`String.prototype.includes`. -/
def charsContain (pat : List Char) : List Char → Bool
  | [] => pat.isEmpty
  | c :: cs => pat.isPrefixOf (c :: cs) || charsContain pat cs

/-- `hay.includes(pat)` on a character list `hay`. -/
def jsIncludes (hay : List Char) (pat : String) : Bool :=
  charsContain pat.data hay

/-- `s.toLowerCase()` as a character list (ASCII lowering, which agrees
with JS on the category labels involved). -/
def jsToLower (s : String) : List Char :=
  s.data.map Char.toLower

/-! ## The field-level migration of `initializeDefaultData`
(`src/app.js` lines 262–289), one definition per sequential `if`. -/

/-- `item.category === 'Cuero Artesanal'` (line 281). -/
def cueroCond (c : Option String) : Bool :=
  c == some "Cuero Artesanal"

/-- `item.category && item.category.toLowerCase().includes('trapillo')`
(line 285). -/
def trapilloCond : Option String → Bool
  | none => false
  | some s => !(s == "") && jsIncludes (jsToLower s) "trapillo"

/-- `item.img && !item.images` (line 270). -/
def imgCond (item : MenuRec) : Bool :=
  truthyStr item.img && !truthyImages item.images

/-- `if (item.cost === undefined) { item.cost = 0; needsUpdate = true; }`. -/
def stepCost (item : MenuRec) : MenuRec × Bool :=
  match item.cost with
  | none => ({ item with cost := some 0 }, true)
  | some _ => (item, false)

/-- `if (item.img && !item.images) { item.images = [item.img]; delete item.img; needsUpdate = true; }`. -/
def stepImg (item : MenuRec) : MenuRec × Bool :=
  if imgCond item then
    ({ item with images := .arr [item.img.getD ""], img := none }, true)
  else (item, false)

/-- `if (!item.images || !Array.isArray(item.images)) { item.images = []; needsUpdate = true; }`. -/
def stepImages (item : MenuRec) : MenuRec × Bool :=
  if !truthyImages item.images || !isArrImages item.images then
    ({ item with images := .arr [] }, true)
  else (item, false)

/-- `if (item.category === 'Cuero Artesanal') { item.category = 'Cuero'; needsUpdate = true; }`. -/
def stepCuero (item : MenuRec) : MenuRec × Bool :=
  if cueroCond item.category then
    ({ item with category := some "Cuero" }, true)
  else (item, false)

/-- `if (item.category && item.category.toLowerCase().includes('trapillo')) { item.category = 'Tejidos Crochet'; needsUpdate = true; }`. -/
def stepTrapillo (item : MenuRec) : MenuRec × Bool :=
  if trapilloCond item.category then
    ({ item with category := some "Tejidos Crochet" }, true)
  else (item, false)

/-- The body of the `AppState.menuItems.forEach(item => ...)` migration:
the five `if`s applied in source order, with the flag recording whether
any of them fired (the per-item contribution to `needsUpdate`). -/
def migrateItem (item : MenuRec) : MenuRec × Bool :=
  let p1 := stepCost item
  let p2 := stepImg p1.1
  let p3 := stepImages p2.1
  let p4 := stepCuero p3.1
  let p5 := stepTrapillo p4.1
  (p5.1, p1.2 || p2.2 || p3.2 || p4.2 || p5.2)

/-- The whole `forEach` over `AppState.menuItems`: every record migrated
in place, `needsUpdate` the disjunction of the per-item flags. -/
def migrateAll : List MenuRec → List MenuRec × Bool
  | [] => ([], false)
  | r :: rs =>
    let p := migrateItem r
    let q := migrateAll rs
    (p.1 :: q.1, p.2 || q.2)

/-- The migration invariant established by one pass of the `forEach`
body: `cost` is present, `images` is an array, and neither category
rename condition fires any more.  A record satisfying it is left
untouched by a further pass. -/
def itemFixed (r : MenuRec) : Bool :=
  r.cost.isSome && isArrImages r.images && !cueroCond r.category
    && !trapilloCond r.category

/-! ## The API access layer (`src/app.js` lines 31–97)

Each operation is embedded as a function of the backend's behaviour.
`getAll` / `update` / `delete` issue exactly one `fetch`, whose outcome
is an `Option (status × parsed body)` (`none` = transport failure); the
first component of the result counts the requests issued.  `save` is the
retry loop, embedded over an attempt oracle: `attempt n` is the outcome
of the `n`-th request (`some body` = 2xx response with parsed JSON body,
`none` = non-2xx or transport failure). -/

/-- The error kinds signalled by the API layer (spec §7). -/
inductive ApiError where
  | fetchError : ApiError
  | saveError : ApiError
  | updateError : ApiError
  | deleteError : ApiError
deriving DecidableEq, Repr

/-- `response.ok`: status in the 2xx range. -/
def respOk (status : Nat) : Bool :=
  200 ≤ status && status ≤ 299

instance {ε α : Type} [DecidableEq ε] [DecidableEq α] : DecidableEq (Except ε α)
  | .error a, .error b =>
    match decEq a b with
    | isTrue h => isTrue (by rw [h])
    | isFalse h => isFalse (by intro hh; cases hh; exact h rfl)
  | .error _, .ok _ => isFalse (by intro h; cases h)
  | .ok _, .error _ => isFalse (by intro h; cases h)
  | .ok a, .ok b =>
    match decEq a b with
    | isTrue h => isTrue (by rw [h])
    | isFalse h => isFalse (by intro hh; cases hh; exact h rfl)

/-- The observable outcome of one `API.save` call: how many HTTP requests
were issued, the `setTimeout` delays (ms) slept between attempts, and the
result — `.ok (some body)` a successful response's parsed body,
`.ok none` the implicit `undefined` return when the loop body never runs,
`.error` the rethrown failure after the last attempt. -/
structure SaveTrace (R : Type) where
  requests : Nat
  delays : List Nat
  result : Except ApiError (Option R)
deriving DecidableEq, Repr

namespace API

/-- `async getAll(table)`: one `fetch`; a non-ok status or transport
failure is thrown to the caller (as `FetchError`), otherwise the parsed
JSON body is returned.  The first component counts requests. -/
def getAll {B : Type} (resp : Option (Nat × B)) : Nat × Except ApiError B :=
  (1, match resp with
      | some (status, body) =>
        if respOk status then .ok body else .error .fetchError
      | none => .error .fetchError)

/-- The body of `save`'s `for (let i = 0; i <= retries; i++)` loop,
structurally recursive on the remaining iteration count
`fuel = retries + 1 - i` (so `fuel = 0` after the last iteration, and
inside an iteration `fuel = 1` exactly when `i === retries`).  A
successful attempt returns its body at once; a failed attempt on
`i === retries` rethrows the error; otherwise the loop sleeps
`500 * (i + 1)` ms and retries. -/
def saveLoop {R : Type} (attempt : Nat → Option R) (i : Nat) : Nat → SaveTrace R
  | 0 => ⟨0, [], .ok none⟩
  | fuel + 1 =>
    match attempt i with
    | some body => ⟨1, [], .ok (some body)⟩
    | none =>
      if fuel = 0 then ⟨1, [], .error .saveError⟩
      else
        let rest := saveLoop attempt (i + 1) fuel
        ⟨rest.requests + 1, 500 * (i + 1) :: rest.delays, rest.result⟩

/-- `async save(table, items, retries = 2)`: the bounded retry loop.
`retries` is an `Int` because the JS loop condition `i <= retries` is
also well-defined for negative arguments (the loop body then never
runs and the function returns `undefined`). -/
def save {R : Type} (attempt : Nat → Option R) (retries : Int := 2) : SaveTrace R :=
  saveLoop attempt 0 (retries + 1).toNat

/-- `async update(table, id, item)`: one `fetch`, failure signalled as
`UpdateError`, no retry. -/
def update {B : Type} (resp : Option (Nat × B)) : Nat × Except ApiError B :=
  (1, match resp with
      | some (status, body) =>
        if respOk status then .ok body else .error .updateError
      | none => .error .updateError)

/-- `async delete(table, id)`: one `fetch`, failure signalled as
`DeleteError`, no retry. -/
def delete {B : Type} (resp : Option (Nat × B)) : Nat × Except ApiError B :=
  (1, match resp with
      | some (status, body) =>
        if respOk status then .ok body else .error .deleteError
      | none => .error .deleteError)

end API

/-! ## Bootstrap routines (`src/app.js` lines 200–315) -/

/-- The backend collections addressed by the bootstrap code. -/
inductive Table where
  | menu_items : Table
  | orders : Table
  | transactions : Table
  | waiters : Table
  | cash_closures : Table
  | config : Table
deriving DecidableEq, Repr

/-- The fields of `AppState` populated by `loadInitialData`, generic in
the record type `V` of the fetched collections (`config` holds
`configArray[0]`, `none` standing for the empty object `{}`). -/
structure AppStateV (V : Type) where
  menuItems : List V
  orders : List V
  transactions : List V
  waiters : List V
  cashClosures : List V
  config : Option V
deriving DecidableEq, Repr

/-- `async loadInitialData()`: sequential fetches into `AppState`.  The
oracle `fetch` gives each table's outcome.  Returns the list of tables
actually fetched (in order) together with either the populated state or
the first propagated error.  The inner `try/catch` downgrades a
`cash_closures` failure to `[]`; the outer `try/catch` only logs and
rethrows, so every other failure propagates and aborts the sequence. -/
def loadInitialData {V : Type} (fetch : Table → Except ApiError (List V)) :
    List Table × Except ApiError (AppStateV V) :=
  match fetch .menu_items with
  | .error e => ([.menu_items], .error e)
  | .ok mi =>
    match fetch .orders with
    | .error e => ([.menu_items, .orders], .error e)
    | .ok os =>
      match fetch .transactions with
      | .error e => ([.menu_items, .orders, .transactions], .error e)
      | .ok ts =>
        match fetch .waiters with
        | .error e => ([.menu_items, .orders, .transactions, .waiters], .error e)
        | .ok ws =>
          let cc := match fetch .cash_closures with
            | .error _ => []
            | .ok l => l
          match fetch .config with
          | .error e =>
            ([.menu_items, .orders, .transactions, .waiters, .cash_closures, .config],
             .error e)
          | .ok configArray =>
            ([.menu_items, .orders, .transactions, .waiters, .cash_closures, .config],
             .ok { menuItems := mi, orders := os, transactions := ts, waiters := ws,
                   cashClosures := cc, config := configArray.head? })

/-- The identifiers `Utils.generateId()` would produce for the three
seeded menu items and the two seeded waiters (the generator mixes the
current time with randomness, so the routine is parameterized by its
output; nothing in the routine inspects these strings). -/
structure SeedIds where
  m1 : String
  m2 : String
  m3 : String
  w1 : String
  w2 : String

/-- The three example records installed when `menu_items` is empty
(`src/app.js` lines 228–259).  Note they populate the singular `image`
field — not `img` and not `images`. -/
def seedMenuItems (ids : SeedIds) : List MenuRec :=
  [ { id := ids.m1,
      name := "Bolso Macramé Crudo",
      description := "Bolso tejido a mano en hilo de algodón color crudo. Diseño elegante y espacioso.",
      cost := some 45000,
      price := some 85000,
      category := some "Macramé",
      image := some "https://lh3.googleusercontent.com/aida-public/AB6AXuBk6smYy2Mm-f3m_jaZGjaNaTiCZk7WJoDuXJ2XvpQdVBqjbxeHZBapk_oryfTLJ_p3b0JBfZPYOh_vaiaa1kTS2QbuTlv8ZU53vJAftgMuP2RaKvPxvey4jmui8MtvGY2ubBrC1yvcbBoQx4uXHx47VbaLRfhQt42kq8jQTmyNkPDuGhjMYDWFIiygY9badWq5eGbfCeJUOMyqUaJTdUXDag9CIvqI35s6uGg9xciuIZccIxrN1j1YVvBC4FYScSLtAH502Y5jDmc",
      available := true },
    { id := ids.m2,
      name := "Cartera Zuncho Colorida",
      description := "Cartera resistente tejida en zuncho con patrones geométricos vibrantes.",
      cost := some 35000,
      price := some 65000,
      category := some "Bolsos en Zuncho",
      image := some "zuncho_artesanal.png",
      available := true },
    { id := ids.m3,
      name := "Cesta Organizadora",
      description := "Cesta tejida en trapillo ideal para organizar espacios con estilo.",
      cost := some 25000,
      price := some 45000,
      category := some "Tejidos Crochet",
      image := some "https://lh3.googleusercontent.com/aida-public/AB6AXuBBb22GOqiBV3DeTE7F8-8QgWOmKaEbZVPAUkwa1czfqVAN6wcTs7nDkuPXcNxPUhKZ5EhCdubA4EXwfnzccyYH2Vgn9cGljielLhFylJDi_m51lnyIxlWkVgpxdjGWyLjFSL1IAa0PwmRzEJDR8y5r8_BvC6QvJtH5Rz7z4ZtXgG8qK_l8J3bJ4Z5yL9XwQ9zH3jK5nM2P4rT8qVw6xY7uZ9aO1bC3dE5fG7hI9jL0mK2nO4pQ6sR8tU9vW1xY3zA5bC7d9eF1gH3jI5kL7mN9oP2rS",
      available := true } ]

/-- The two default waiters (`src/app.js` lines 296–307). -/
def seedWaiters (ids : SeedIds) : List Waiter :=
  [ { id := ids.w1, name := "Juan Pérez", active := true },
    { id := ids.w2, name := "María García", active := true } ]

/-- The slice of `AppState` read and written by `initializeDefaultData`. -/
structure InitState where
  menuItems : List MenuRec
  waiters : List Waiter
deriving DecidableEq, Repr

/-- One `API.save(table, payload)` call issued by `initializeDefaultData`
(the saves are awaited and assumed to succeed; only the calls are
traced). -/
inductive SaveCall where
  | menu_items : List MenuRec → SaveCall
  | waiters : List Waiter → SaveCall
deriving DecidableEq, Repr

/-- `async initializeDefaultData()`: seed an empty `menu_items`
collection with the example records, otherwise migrate every record and
persist only if some record changed; then seed `waiters` if empty.
Returns the new state and the `API.save` calls issued, in order. -/
def initializeDefaultData (ids : SeedIds) (st : InitState) : InitState × List SaveCall :=
  let menuPart : List MenuRec × List SaveCall :=
    if st.menuItems = [] then
      (seedMenuItems ids, [SaveCall.menu_items (seedMenuItems ids)])
    else
      let m := migrateAll st.menuItems
      (m.1, if m.2 then [SaveCall.menu_items m.1] else [])
  let waiterPart : List Waiter × List SaveCall :=
    if st.waiters = [] then
      (seedWaiters ids, [SaveCall.waiters (seedWaiters ids)])
    else (st.waiters, [])
  ({ menuItems := menuPart.1, waiters := waiterPart.1 }, menuPart.2 ++ waiterPart.2)

/-! ## Date utilities (`src/app.js` lines 124–131)

`Intl.DateTimeFormat('en-CA', { timeZone, year, month, day })` is
modelled as a proleptic-Gregorian calendar conversion of the instant
shifted by the timezone's fixed UTC offset in minutes (America/Bogota is
a fixed-offset zone).  The formatter uses the ambient local timezone
exactly when the `timeZone` option is absent — this is where a caller's
environment could leak into the output. -/

/-- `APP_TIMEZONE = 'America/Bogota'` as its fixed UTC offset, minutes. -/
def APP_TIMEZONE_OFFSET : Int := -300

/-- The `timeZone` option of an `Intl.DateTimeFormat`: `none` means the
formatter falls back to the environment's local timezone. -/
structure DTFOptions where
  timeZone : Option Int := none

/-- Which timezone the formatter actually uses. -/
def resolveTimeZone (ambient : Int) (opts : DTFOptions) : Int :=
  opts.timeZone.getD ambient

/-- Civil date (year, month, day) of a day count since 1970-01-01
(standard days-to-civil algorithm, proleptic Gregorian). -/
def civilFromDays (z : Int) : Int × Nat × Nat :=
  let era : Int := (z + 719468).fdiv 146097
  let doe : Nat := ((z + 719468) - era * 146097).toNat
  let yoe : Nat := (doe - doe / 1460 + doe / 36524 - doe / 146096) / 365
  let y : Int := (yoe : Int) + era * 400
  let doy : Nat := doe - (365 * yoe + yoe / 4 - yoe / 100)
  let mp : Nat := (5 * doy + 2) / 153
  let d : Nat := doy - (153 * mp + 2) / 5 + 1
  let m : Nat := if mp < 10 then mp + 3 else mp - 9
  (if m ≤ 2 then y + 1 else y, m, d)

/-- Two-digit field of an `en-CA` date key. -/
def pad2 (n : Nat) : String :=
  if n < 10 then "0" ++ toString n else toString n

/-- `new Intl.DateTimeFormat('en-CA', { timeZone?, year, month, day
}).format(date)`: the `YYYY-MM-DD` key of the instant (epoch
milliseconds) in the resolved timezone. -/
def formatEnCADate (ambient : Int) (opts : DTFOptions) (tMillis : Int) : String :=
  let tz := resolveTimeZone ambient opts
  let localDays := (tMillis + tz * 60000).fdiv 86400000
  let c := civilFromDays localDays
  toString c.1 ++ "-" ++ pad2 c.2.1 ++ "-" ++ pad2 c.2.2

namespace Utils

/-- `getDateKey(date, timeZone = APP_TIMEZONE)`: formats the instant
with an explicit `timeZone` option; `ambient` is the environment's local
timezone, available to the formatter but only used when no explicit
option is passed. -/
def getDateKey (ambient : Int) (date : Int)
    (timeZone : Int := APP_TIMEZONE_OFFSET) : String :=
  formatEnCADate ambient { timeZone := some timeZone } date

end Utils

/-! # Theorems -/

-- Sanity: a legacy record is normalized as the source comments describe.
example :
    migrateItem { id := "x", img := some "a.png", category := some "Trapillo Fino" } =
      ({ id := "x", cost := some 0, category := some "Tejidos Crochet",
         images := .arr ["a.png"] }, true) := by decide

-- Sanity: three straight failures with the default `retries = 2`.
example :
    API.save (fun _ => (none : Option Nat)) =
      ⟨3, [500, 1000], .error .saveError⟩ := by decide

-- Sanity: the epoch instant is 1970-01-01 in UTC but 1969-12-31 in Bogota.
example : Utils.getDateKey 0 0 0 = "1970-01-01" := by decide
example : Utils.getDateKey 0 0 = "1969-12-31" := by decide

/-! ## C2, C10: the `save` retry loop -/

/-- C2: with `retries = 2`, a persistently failing endpoint is hit by
exactly 3 requests with sleeps of 500 ms then 1000 ms (500 ms × attempt
number) between attempts and `SaveError` is signalled only after the
third failure; if the `k`-th attempt (`k ≤ 2`) is the first to succeed,
its parsed body is returned at once after exactly `k + 1` requests, with
only the sleeps of the preceding failures. -/
theorem save_retry_contract {R : Type} (attempt : Nat → Option R) :
    ((∀ i, attempt i = none) →
      API.save attempt 2 = ⟨3, [500, 1000], .error .saveError⟩)
    ∧ (∀ k body, attempt k = some body → (∀ j, j < k → attempt j = none) →
        k ≤ 2 →
        API.save attempt 2 =
          ⟨k + 1, (List.range k).map (fun j => 500 * (j + 1)),
           .ok (some body)⟩) := by
  constructor
  · intro hfail
    show API.saveLoop attempt 0 3 = _
    simp [API.saveLoop, hfail 0, hfail 1, hfail 2]
  · intro k body hk hprev hle
    interval_cases k
    · show API.saveLoop attempt 0 3 = _
      simp [API.saveLoop, hk]
    · have h0 : attempt 0 = none := hprev 0 (by omega)
      show API.saveLoop attempt 0 3 = _
      simp [API.saveLoop, h0, hk, List.range_succ]
    · have h0 : attempt 0 = none := hprev 0 (by omega)
      have h1 : attempt 1 = none := hprev 1 (by omega)
      show API.saveLoop attempt 0 3 = _
      simp [API.saveLoop, h0, h1, hk, List.range_succ]

/-- Witness for `save_retry_contract`: an always-failing endpoint and an
endpoint whose second attempt succeeds. -/
theorem save_retry_contract_witness :
    API.save (fun _ => (none : Option Nat)) 2 =
      ⟨3, [500, 1000], .error .saveError⟩
    ∧ API.save (fun i => if i = 1 then some 7 else (none : Option Nat)) 2 =
        ⟨2, [500], .ok (some 7)⟩ := by
  constructor
  · exact (save_retry_contract _).1 (fun i => rfl)
  · have h := (save_retry_contract (fun i => if i = 1 then some 7 else none)).2
      1 7 rfl (fun j hj => by interval_cases j; rfl) (by omega)
    simpa using h

/-- C10: a negative `retries` makes the loop condition `i <= retries`
false at once, so `save` issues no request, sleeps never and returns the
implicit `undefined` without signalling any error. -/
theorem save_negative_retries_no_request {R : Type} (attempt : Nat → Option R)
    (retries : Int) (h : retries < 0) :
    API.save attempt retries = ⟨0, [], .ok none⟩ := by
  unfold API.save
  have h0 : (retries + 1).toNat = 0 := by omega
  rw [h0]
  rfl

/-- Witness for `save_negative_retries_no_request` at `retries = -1`. -/
theorem save_negative_retries_no_request_witness :
    API.save (fun _ => (none : Option Nat)) (-1) = ⟨0, [], .ok none⟩ :=
  save_negative_retries_no_request _ (-1) (by decide)

/-! ## C3: no retry on the single-shot operations -/

/-- C3: on any non-2xx response, `getAll`, `update` and `delete` each
issue exactly one request and signal their respective error
(`FetchError`, `UpdateError`, `DeleteError`) exactly once, with no
retry. -/
theorem api_single_request_error_on_non2xx {B : Type} (status : Nat) (body : B)
    (h : respOk status = false) :
    API.getAll (some (status, body)) = (1, .error .fetchError)
    ∧ API.update (some (status, body)) = (1, .error .updateError)
    ∧ API.delete (some (status, body)) = (1, .error .deleteError) := by
  refine ⟨?_, ?_, ?_⟩ <;> simp [API.getAll, API.update, API.delete, h]

/-- Witness for `api_single_request_error_on_non2xx` at HTTP 500. -/
theorem api_single_request_error_on_non2xx_witness :
    API.getAll (some (500, 0)) = (1, .error .fetchError)
    ∧ API.update (some (500, 0)) = (1, .error .updateError)
    ∧ API.delete (some (500, 0)) = (1, .error .deleteError) :=
  api_single_request_error_on_non2xx 500 (0 : Nat) (by decide)

/-! ## C9: `getDateKey` ignores the ambient timezone -/

/-- C9: `getDateKey` passes an explicit `timeZone` option to the
formatter, so for a fixed instant and target timezone its `YYYY-MM-DD`
output is the same whatever the caller's local (ambient) timezone is. -/
theorem getDateKey_ambient_independent (a1 a2 t tz : Int) :
    Utils.getDateKey a1 t tz = Utils.getDateKey a2 t tz := rfl

/-! ## C4, C8: `loadInitialData` -/

/-- C4: an unreachable `cash_closures` endpoint is downgraded to an
empty list and `loadInitialData` still completes, whereas a failure on
the required `menu_items` collection propagates and aborts the load with
no further collection fetched. -/
theorem loadInitialData_cash_closures_optional {V : Type}
    (fetch : Table → Except ApiError (List V)) (mi os ts ws cfg : List V)
    (ecc : ApiError)
    (hmi : fetch .menu_items = .ok mi) (hos : fetch .orders = .ok os)
    (hts : fetch .transactions = .ok ts) (hws : fetch .waiters = .ok ws)
    (hcc : fetch .cash_closures = .error ecc) (hcfg : fetch .config = .ok cfg) :
    loadInitialData fetch =
      ([.menu_items, .orders, .transactions, .waiters, .cash_closures, .config],
       .ok { menuItems := mi, orders := os, transactions := ts, waiters := ws,
             cashClosures := [], config := cfg.head? })
    ∧ ∀ (g : Table → Except ApiError (List V)) (e : ApiError),
        g .menu_items = .error e →
        loadInitialData g = ([.menu_items], .error e) := by
  constructor
  · unfold loadInitialData
    rw [hmi, hos, hts, hws, hcc, hcfg]
  · intro g e hg
    unfold loadInitialData
    rw [hg]

/-- Witness for `loadInitialData_cash_closures_optional`: a backend where
only `cash_closures` fails, and a backend where everything fails. -/
theorem loadInitialData_cash_closures_optional_witness :
    loadInitialData
        (fun t => match t with
          | Table.cash_closures => Except.error ApiError.fetchError
          | Table.config => Except.ok [5]
          | _ => Except.ok ([] : List Nat)) =
      ([.menu_items, .orders, .transactions, .waiters, .cash_closures, .config],
       .ok { menuItems := [], orders := [], transactions := [], waiters := [],
             cashClosures := [], config := [5].head? })
    ∧ loadInitialData
        (fun _ => (Except.error ApiError.fetchError : Except ApiError (List Nat))) =
        ([Table.menu_items], .error .fetchError) := by
  have h := loadInitialData_cash_closures_optional
    (fun t => match t with
      | Table.cash_closures => Except.error ApiError.fetchError
      | Table.config => Except.ok [5]
      | _ => Except.ok ([] : List Nat))
    [] [] [] [] [5] .fetchError rfl rfl rfl rfl rfl rfl
  exact ⟨h.1, h.2 _ .fetchError rfl⟩

/-- C8: `loadInitialData` sets `AppState.config` to the first element of
the fetched `config` collection, and to the empty object when that
collection is empty. -/
theorem loadInitialData_config_first_element {V : Type}
    (fetch : Table → Except ApiError (List V)) (mi os ts ws cc cfg : List V)
    (hmi : fetch .menu_items = .ok mi) (hos : fetch .orders = .ok os)
    (hts : fetch .transactions = .ok ts) (hws : fetch .waiters = .ok ws)
    (hcc : fetch .cash_closures = .ok cc) (hcfg : fetch .config = .ok cfg) :
    ∃ st : AppStateV V,
      loadInitialData fetch =
        ([.menu_items, .orders, .transactions, .waiters, .cash_closures, .config],
         .ok st)
      ∧ st.config = cfg.head?
      ∧ (cfg = [] → st.config = none)
      ∧ (∀ c rest, cfg = c :: rest → st.config = some c) := by
  refine ⟨{ menuItems := mi, orders := os, transactions := ts, waiters := ws,
            cashClosures := cc, config := cfg.head? }, ?_, rfl, ?_, ?_⟩
  · unfold loadInitialData
    rw [hmi, hos, hts, hws, hcc, hcfg]
  · intro h
    rw [h]
    rfl
  · intro c rest h
    rw [h]
    rfl

/-- Witness for `loadInitialData_config_first_element` on a backend whose
`config` collection is `[7]`. -/
theorem loadInitialData_config_first_element_witness :
    ∃ st : AppStateV Nat,
      loadInitialData
          (fun t => match t with
            | Table.config => Except.ok [7]
            | _ => Except.ok ([] : List Nat)) =
        ([.menu_items, .orders, .transactions, .waiters, .cash_closures, .config],
         .ok st)
      ∧ st.config = [7].head?
      ∧ (([7] : List Nat) = [] → st.config = none)
      ∧ (∀ c rest, ([7] : List Nat) = c :: rest → st.config = some c) :=
  loadInitialData_config_first_element
    (fun t => match t with
      | Table.config => Except.ok [7]
      | _ => Except.ok ([] : List Nat))
    [] [] [] [] [] [7] rfl rfl rfl rfl rfl rfl

/-! ## Helper lemmas on the migration steps -/

theorem stepCost_category (r : MenuRec) : ((stepCost r).1).category = r.category := by
  unfold stepCost
  cases r.cost <;> rfl

theorem stepCost_img (r : MenuRec) : ((stepCost r).1).img = r.img := by
  unfold stepCost
  cases r.cost <;> rfl

theorem stepCost_images (r : MenuRec) : ((stepCost r).1).images = r.images := by
  unfold stepCost
  cases r.cost <;> rfl

theorem stepCost_cost_isSome (r : MenuRec) : ((stepCost r).1).cost.isSome = true := by
  unfold stepCost
  cases hc : r.cost <;> simp [hc]

theorem stepImg_cost (r : MenuRec) : ((stepImg r).1).cost = r.cost := by
  unfold stepImg
  split <;> rfl

theorem stepImg_category (r : MenuRec) : ((stepImg r).1).category = r.category := by
  unfold stepImg
  split <;> rfl

theorem stepImages_cost (r : MenuRec) : ((stepImages r).1).cost = r.cost := by
  unfold stepImages
  split <;> rfl

theorem stepImages_img (r : MenuRec) : ((stepImages r).1).img = r.img := by
  unfold stepImages
  split <;> rfl

theorem stepImages_category (r : MenuRec) : ((stepImages r).1).category = r.category := by
  unfold stepImages
  split <;> rfl

theorem stepCuero_cost (r : MenuRec) : ((stepCuero r).1).cost = r.cost := by
  unfold stepCuero
  split <;> rfl

theorem stepCuero_img (r : MenuRec) : ((stepCuero r).1).img = r.img := by
  unfold stepCuero
  split <;> rfl

theorem stepCuero_images (r : MenuRec) : ((stepCuero r).1).images = r.images := by
  unfold stepCuero
  split <;> rfl

theorem stepTrapillo_cost (r : MenuRec) : ((stepTrapillo r).1).cost = r.cost := by
  unfold stepTrapillo
  split <;> rfl

theorem stepTrapillo_img (r : MenuRec) : ((stepTrapillo r).1).img = r.img := by
  unfold stepTrapillo
  split <;> rfl

theorem stepTrapillo_images (r : MenuRec) : ((stepTrapillo r).1).images = r.images := by
  unfold stepTrapillo
  split <;> rfl

theorem truthyImages_of_isArr (i : JsImages) (h : isArrImages i = true) :
    truthyImages i = true := by
  cases i <;> simp_all [isArrImages, truthyImages]

/-- After the third `if`, `images` is an array. -/
theorem stepImages_isArr (r : MenuRec) :
    isArrImages ((stepImages r).1).images = true := by
  unfold stepImages
  split
  · rfl
  · rename_i h
    simp only [Bool.or_eq_true, Bool.not_eq_true'] at h
    push_neg at h
    simp [Bool.not_eq_false] at h
    exact h.2

/-- After the two category renames, neither rename condition fires. -/
theorem categoryStable_after (r : MenuRec) :
    cueroCond (((stepTrapillo (stepCuero r).1).1).category) = false
    ∧ trapilloCond (((stepTrapillo (stepCuero r).1).1).category) = false := by
  have d1 : cueroCond (some "Cuero") = false := by decide
  have d2 : trapilloCond (some "Cuero") = false := by decide
  have d3 : cueroCond (some "Tejidos Crochet") = false := by decide
  have d4 : trapilloCond (some "Tejidos Crochet") = false := by decide
  by_cases h1 : cueroCond r.category = true
  · have e1 : (stepCuero r).1 = { r with category := some "Cuero" } := by
      unfold stepCuero
      rw [if_pos h1]
    rw [e1]
    have e2 : stepTrapillo { r with category := some "Cuero" } =
        ({ r with category := some "Cuero" }, false) := by
      unfold stepTrapillo
      rw [if_neg]
      simp [d2]
    rw [e2]
    exact ⟨d1, d2⟩
  · have e1 : (stepCuero r).1 = r := by
      unfold stepCuero
      rw [if_neg h1]
    rw [e1]
    by_cases h2 : trapilloCond r.category = true
    · have e2 : (stepTrapillo r).1 = { r with category := some "Tejidos Crochet" } := by
        unfold stepTrapillo
        rw [if_pos h2]
      rw [e2]
      exact ⟨d3, d4⟩
    · have e2 : (stepTrapillo r).1 = r := by
        unfold stepTrapillo
        rw [if_neg h2]
      rw [e2]
      exact ⟨by simpa using h1, by simpa using h2⟩

/-- One pass of the `forEach` body establishes the migration invariant. -/
theorem migrateItem_fixed (r : MenuRec) : itemFixed (migrateItem r).1 = true := by
  have hfst : (migrateItem r).1 =
      (stepTrapillo (stepCuero (stepImages (stepImg (stepCost r).1).1).1).1).1 := rfl
  unfold itemFixed
  rw [hfst]
  have hcost : ((stepTrapillo (stepCuero (stepImages (stepImg (stepCost r).1).1).1).1).1).cost
      = ((stepCost r).1).cost := by
    rw [stepTrapillo_cost, stepCuero_cost, stepImages_cost, stepImg_cost]
  have himg : ((stepTrapillo (stepCuero (stepImages (stepImg (stepCost r).1).1).1).1).1).images
      = ((stepImages (stepImg (stepCost r).1).1).1).images := by
    rw [stepTrapillo_images, stepCuero_images]
  have hcat := categoryStable_after (stepImages (stepImg (stepCost r).1).1).1
  rw [hcost, himg, hcat.1, hcat.2, stepCost_cost_isSome, stepImages_isArr]
  rfl

/-- A record satisfying the migration invariant is left unchanged, with
no `needsUpdate` contribution. -/
theorem migrateItem_of_fixed (r : MenuRec) (h : itemFixed r = true) :
    migrateItem r = (r, false) := by
  unfold itemFixed at h
  simp only [Bool.and_eq_true, Bool.not_eq_true'] at h
  obtain ⟨⟨⟨hcost, harr⟩, hcuero⟩, htrap⟩ := h
  have e1 : stepCost r = (r, false) := by
    unfold stepCost
    cases hc : r.cost
    · rw [hc] at hcost
      simp at hcost
    · rfl
  have htruthy : truthyImages r.images = true := truthyImages_of_isArr _ harr
  have e2 : stepImg r = (r, false) := by
    unfold stepImg imgCond
    rw [htruthy]
    simp
  have e3 : stepImages r = (r, false) := by
    unfold stepImages
    rw [htruthy, harr]
    simp
  have e4 : stepCuero r = (r, false) := by
    unfold stepCuero
    rw [hcuero]
    simp
  have e5 : stepTrapillo r = (r, false) := by
    unfold stepTrapillo
    rw [htrap]
    simp
  unfold migrateItem
  simp [e1, e2, e3, e4, e5]

/-- One pass is idempotent at the record level. -/
theorem migrateItem_idem (r : MenuRec) :
    migrateItem (migrateItem r).1 = ((migrateItem r).1, false) :=
  migrateItem_of_fixed _ (migrateItem_fixed r)

theorem migrateAll_fixed (l : List MenuRec) :
    ∀ x ∈ (migrateAll l).1, itemFixed x = true := by
  induction l with
  | nil => simp [migrateAll]
  | cons r rs ih =>
    intro x hx
    simp only [migrateAll, List.mem_cons] at hx
    rcases hx with h | h
    · subst h
      exact migrateItem_fixed r
    · exact ih x h

theorem migrateAll_of_fixed (l : List MenuRec)
    (h : ∀ x ∈ l, itemFixed x = true) :
    migrateAll l = (l, false) := by
  induction l with
  | nil => rfl
  | cons r rs ih =>
    have hr := migrateItem_of_fixed r (h r (by simp))
    have hrs := ih (fun x hx => h x (by simp [hx]))
    simp [migrateAll, hr, hrs]

theorem migrateAll_length (l : List MenuRec) :
    (migrateAll l).1.length = l.length := by
  induction l with
  | nil => rfl
  | cons r rs ih => simp [migrateAll, ih]

/-- A record whose `images` is already an array passes the third `if`
untouched. -/
theorem stepImages_arr (r : MenuRec) (l : List String) (h : r.images = .arr l) :
    ((stepImages r).1).images = .arr l := by
  have hc : (!truthyImages r.images || !isArrImages r.images) = false := by
    rw [h]
    rfl
  unfold stepImages
  simp only [hc, Bool.false_eq_true, if_false]
  exact h

/-! ## C5: the category renames -/

/-- C5: in the migration pass, a record with category exactly
"Cuero Artesanal" ends with category "Cuero"; a record whose category
contains "trapillo" case-insensitively ends with category
"Tejidos Crochet"; a record matching neither keeps its category. -/
theorem migrateItem_category_rename (r : MenuRec) :
    (r.category = some "Cuero Artesanal" →
      ((migrateItem r).1).category = some "Cuero")
    ∧ (∀ s, r.category = some s → jsIncludes (jsToLower s) "trapillo" = true →
        ((migrateItem r).1).category = some "Tejidos Crochet")
    ∧ (r.category ≠ some "Cuero Artesanal" →
       (∀ s, r.category = some s → jsIncludes (jsToLower s) "trapillo" = false) →
        ((migrateItem r).1).category = r.category) := by
  have hfst : (migrateItem r).1 =
      (stepTrapillo (stepCuero (stepImages (stepImg (stepCost r).1).1).1).1).1 := rfl
  set r3 := (stepImages (stepImg (stepCost r).1).1).1 with hr3
  have hcat3 : r3.category = r.category := by
    rw [hr3, stepImages_category, stepImg_category, stepCost_category]
  refine ⟨?_, ?_, ?_⟩
  · intro h
    rw [hfst]
    have hcue : cueroCond r3.category = true := by
      rw [hcat3, h]
      decide
    have e4 : stepCuero r3 = ({ r3 with category := some "Cuero" }, true) := by
      unfold stepCuero
      rw [if_pos hcue]
    rw [e4]
    show ((stepTrapillo { r3 with category := some "Cuero" }).1).category = some "Cuero"
    have d2 : ¬ (trapilloCond (some "Cuero") = true) := by decide
    have hx : ({ r3 with category := some "Cuero" } : MenuRec).category
        = some "Cuero" := rfl
    have e5 : stepTrapillo { r3 with category := some "Cuero" } =
        ({ r3 with category := some "Cuero" }, false) := by
      unfold stepTrapillo
      rw [hx, if_neg d2]
    rw [e5]
  · intro s hs htr
    rw [hfst]
    have hsne : (s == "") = false := by
      cases hse : s == ""
      · rfl
      · exfalso
        have hs0 : s = "" := by simpa using hse
        rw [hs0] at htr
        exact absurd htr (by decide)
    have hcue : cueroCond r3.category = false := by
      rw [hcat3, hs]
      cases hq : cueroCond (some s)
      · rfl
      · exfalso
        have hsca : s = "Cuero Artesanal" := by simpa [cueroCond] using hq
        rw [hsca] at htr
        exact absurd htr (by decide)
    have htrap3 : trapilloCond r3.category = true := by
      rw [hcat3, hs]
      unfold trapilloCond
      simp [hsne, htr]
    have e4 : stepCuero r3 = (r3, false) := by
      unfold stepCuero
      rw [if_neg (by simp [hcue])]
    rw [e4]
    show ((stepTrapillo r3).1).category = some "Tejidos Crochet"
    have e5 : stepTrapillo r3 = ({ r3 with category := some "Tejidos Crochet" }, true) := by
      unfold stepTrapillo
      rw [if_pos htrap3]
    rw [e5]
  · intro h1 h2
    rw [hfst]
    have hcue : cueroCond r3.category = false := by
      rw [hcat3]
      cases hc : r.category
      · rfl
      · rename_i s
        rw [hc] at h1
        simpa [cueroCond] using h1
    have htrp : trapilloCond r3.category = false := by
      rw [hcat3]
      cases hc : r.category
      · rfl
      · rename_i s
        have hinc := h2 s hc
        unfold trapilloCond
        simp [hinc]
    have e4 : stepCuero r3 = (r3, false) := by
      unfold stepCuero
      rw [if_neg (by simp [hcue])]
    rw [e4]
    show ((stepTrapillo r3).1).category = r.category
    have e5 : stepTrapillo r3 = (r3, false) := by
      unfold stepTrapillo
      rw [if_neg (by simp [htrp])]
    rw [e5]
    exact hcat3

/-- Witness for `migrateItem_category_rename`: one record per case. -/
theorem migrateItem_category_rename_witness :
    ((migrateItem { id := "1", category := some "Cuero Artesanal" }).1).category
      = some "Cuero"
    ∧ ((migrateItem { id := "2", category := some "Bolsos en Trapillo" }).1).category
        = some "Tejidos Crochet"
    ∧ ((migrateItem { id := "3", category := some "Macramé" }).1).category
        = some "Macramé" := by
  refine ⟨?_, ?_, ?_⟩
  · exact (migrateItem_category_rename _).1 rfl
  · exact (migrateItem_category_rename _).2.1 "Bolsos en Trapillo" rfl (by decide)
  · exact (migrateItem_category_rename
      { id := "3", category := some "Macramé" }).2.2 (by decide)
      (fun s hs => by cases hs; decide)

/-! ## C6: the legacy `img` migration -/

/-- C6 (amended): a record with a non-empty legacy `img` field and no
`images` field is rewritten to a one-element `images` list holding the
former `img` value, and the `img` field is removed.  (The code tests JS
truthiness, so an empty-string `img` is not migrated — see the
counterexample.) -/
theorem migrateItem_img_to_images (r : MenuRec) (s : String)
    (h1 : r.img = some s) (h2 : s ≠ "") (h3 : r.images = .undef) :
    ((migrateItem r).1).images = .arr [s]
    ∧ ((migrateItem r).1).img = none := by
  have hfst : (migrateItem r).1 =
      (stepTrapillo (stepCuero (stepImages (stepImg (stepCost r).1).1).1).1).1 := rfl
  have h1' : ((stepCost r).1).img = some s := by rw [stepCost_img, h1]
  have h3' : ((stepCost r).1).images = .undef := by rw [stepCost_images, h3]
  have hcond : imgCond (stepCost r).1 = true := by
    unfold imgCond
    rw [h1', h3']
    simp [truthyStr, truthyImages, h2]
  have e2i : ((stepImg (stepCost r).1).1).images = .arr [s] := by
    unfold stepImg
    rw [if_pos hcond]
    simp [h1']
  have e2g : ((stepImg (stepCost r).1).1).img = none := by
    unfold stepImg
    rw [if_pos hcond]
  constructor
  · rw [hfst, stepTrapillo_images, stepCuero_images]
    exact stepImages_arr _ [s] e2i
  · rw [hfst, stepTrapillo_img, stepCuero_img, stepImages_img]
    exact e2g

/-- C6 counterexample: a record whose `img` field is present but the
empty string (falsy in JS) is not migrated — `img` survives and `images`
becomes `[]`, not a one-element list holding the former value. -/
theorem migrateItem_empty_img_not_migrated :
    ((migrateItem
        { id := "1", cost := some 0, img := some "", images := .undef }).1).img
      = some ""
    ∧ ((migrateItem
        { id := "1", cost := some 0, img := some "", images := .undef }).1).images
      = .arr [] := by
  decide

/-- Witness for `migrateItem_img_to_images`. -/
theorem migrateItem_img_to_images_witness :
    ((migrateItem { id := "w6", img := some "a.png", images := .undef }).1).images
      = .arr ["a.png"]
    ∧ ((migrateItem { id := "w6", img := some "a.png", images := .undef }).1).img
        = none :=
  migrateItem_img_to_images { id := "w6", img := some "a.png", images := .undef }
    "a.png" rfl (by decide) rfl

/-! ## C7: `images` is always a well-formed array after migration -/

/-- C7 (amended): a record whose `images` field is missing or not an
array has it replaced by the empty list — provided the legacy-`img`
branch does not fire first (a truthy `img` with falsy `images` yields
the one-element list instead, see the counterexample); and after the
migration pass every record has an array `images` field and a defined
`cost` field. -/
theorem migrateItem_images_always_array (r : MenuRec) :
    ((isArrImages r.images = false ∧ imgCond r = false) →
      ((migrateItem r).1).images = .arr [])
    ∧ isArrImages ((migrateItem r).1).images = true
    ∧ ((migrateItem r).1).cost ≠ none
    ∧ ∀ (l : List MenuRec), ∀ x ∈ (migrateAll l).1,
        isArrImages x.images = true ∧ x.cost ≠ none := by
  have hall : ∀ (l : List MenuRec), ∀ x ∈ (migrateAll l).1,
      isArrImages x.images = true ∧ x.cost ≠ none := by
    intro l x hx
    have hfx := migrateAll_fixed l x hx
    unfold itemFixed at hfx
    simp only [Bool.and_eq_true, Bool.not_eq_true'] at hfx
    obtain ⟨⟨⟨hcost', harr'⟩, _⟩, _⟩ := hfx
    refine ⟨harr', ?_⟩
    intro hnone
    rw [hnone] at hcost'
    simp at hcost'
  have hfix := migrateItem_fixed r
  unfold itemFixed at hfix
  simp only [Bool.and_eq_true, Bool.not_eq_true'] at hfix
  obtain ⟨⟨⟨hcost, harr⟩, _⟩, _⟩ := hfix
  refine ⟨?_, harr, ?_, hall⟩
  · rintro ⟨ha, hb⟩
    have hfst : (migrateItem r).1 =
        (stepTrapillo (stepCuero (stepImages (stepImg (stepCost r).1).1).1).1).1 := rfl
    rw [hfst, stepTrapillo_images, stepCuero_images]
    have hic : imgCond (stepCost r).1 = false := by
      unfold imgCond
      unfold imgCond at hb
      rw [stepCost_img, stepCost_images]
      exact hb
    have e2 : stepImg (stepCost r).1 = ((stepCost r).1, false) := by
      unfold stepImg
      rw [if_neg (by simp [hic])]
    rw [e2]
    have hcnd : (!truthyImages ((stepCost r).1).images
        || !isArrImages ((stepCost r).1).images) = true := by
      rw [stepCost_images]
      simp [ha]
    unfold stepImages
    rw [if_pos hcnd]
  · intro hnone
    rw [hnone] at hcost
    simp at hcost

/-- C7 counterexample: a record with a truthy legacy `img` and a missing
`images` field ends with the one-element list `[img]`, not the empty
list the claim prescribes for every missing/non-array `images`. -/
theorem migrateItem_missing_images_with_img_counterexample :
    ((migrateItem
        { id := "1", cost := some 0, img := some "x", images := .undef }).1).images
      = .arr ["x"]
    ∧ ((migrateItem
        { id := "1", cost := some 0, img := some "x", images := .undef }).1).images
      ≠ .arr [] := by
  decide

/-- Witness for `migrateItem_images_always_array`: a truthy non-array
`images` value (e.g. a string) is reset to the empty list. -/
theorem migrateItem_images_always_array_witness :
    ((migrateItem { id := "w7", images := .nonArr true }).1).images = .arr []
    ∧ isArrImages ((migrateItem { id := "w7", images := .nonArr true }).1).images
        = true
    ∧ ((migrateItem { id := "w7", images := .nonArr true }).1).cost ≠ none
    ∧ (isArrImages ((migrateItem { id := "w7" }).1).images = true
       ∧ ((migrateItem { id := "w7" }).1).cost ≠ none) := by
  have h := migrateItem_images_always_array { id := "w7", images := .nonArr true }
  exact ⟨h.1 ⟨by decide, by decide⟩, h.2.1, h.2.2.1,
    h.2.2.2 [{ id := "w7" }] _ (by decide)⟩

/-! ## C1: repeated `initializeDefaultData` -/

/-- The state produced by one `initializeDefaultData` call. -/
theorem initializeDefaultData_fst (ids : SeedIds) (st : InitState) :
    (initializeDefaultData ids st).1 =
      { menuItems := if st.menuItems = [] then seedMenuItems ids
                     else (migrateAll st.menuItems).1,
        waiters := if st.waiters = [] then seedWaiters ids else st.waiters } := by
  unfold initializeDefaultData
  by_cases h1 : st.menuItems = [] <;> by_cases h2 : st.waiters = [] <;> simp [h1, h2]

/-- The `API.save` calls issued by one `initializeDefaultData` call. -/
theorem initializeDefaultData_snd (ids : SeedIds) (st : InitState) :
    (initializeDefaultData ids st).2 =
      (if st.menuItems = [] then [SaveCall.menu_items (seedMenuItems ids)]
       else if (migrateAll st.menuItems).2 then
         [SaveCall.menu_items (migrateAll st.menuItems).1]
       else [])
      ++ (if st.waiters = [] then [SaveCall.waiters (seedWaiters ids)] else []) := by
  unfold initializeDefaultData
  by_cases h1 : st.menuItems = [] <;> by_cases h2 : st.waiters = [] <;> simp [h1, h2]

theorem seedMenuItems_ne_nil (ids : SeedIds) : seedMenuItems ids ≠ [] := by
  simp [seedMenuItems]

theorem seedWaiters_ne_nil (ids : SeedIds) : seedWaiters ids ≠ [] := by
  simp [seedWaiters]

/-- On a fully migrated, non-empty state the routine issues no save. -/
theorem initializeDefaultData_no_writes (ids : SeedIds) (st : InitState)
    (hm : st.menuItems ≠ []) (hfix : ∀ x ∈ st.menuItems, itemFixed x = true)
    (hw : st.waiters ≠ []) :
    (initializeDefaultData ids st).2 = [] := by
  rw [initializeDefaultData_snd, migrateAll_of_fixed _ hfix]
  simp [hm, hw]

/-- Every call leaves a non-empty `waiters` collection behind. -/
theorem initializeDefaultData_waiters_ne_nil (ids : SeedIds) (st : InitState) :
    ((initializeDefaultData ids st).1).waiters ≠ [] := by
  rw [initializeDefaultData_fst]
  by_cases h2 : st.waiters = []
  · simp [h2, seedWaiters]
  · simp [h2]

/-- The seeded example records are not yet migrated: they carry no
`images` field, so the very next migration pass flags them. -/
theorem migrateAll_seed_flag (ids : SeedIds) :
    (migrateAll (seedMenuItems ids)).2 = true := rfl

/-- C1 (amended): when the backend's `menu_items` collection is
non-empty, the second of two consecutive `initializeDefaultData` calls
detects no changes and issues zero saves.  When `menu_items` starts
empty, the first call seeds it, but the second call issues exactly one
further `menu_items` save — the seeded records carry the legacy single
`image` field and no `images` field, so the images-normalization step
fires on them — and only from the third call on are zero saves issued. -/
theorem initializeDefaultData_repeat_writes (st : InitState) (i1 i2 i3 : SeedIds) :
    (st.menuItems ≠ [] →
      (initializeDefaultData i2 (initializeDefaultData i1 st).1).2 = [])
    ∧ (st.menuItems = [] →
        (∃ l, (initializeDefaultData i2 (initializeDefaultData i1 st).1).2
            = [SaveCall.menu_items l])
        ∧ (initializeDefaultData i3
            ((initializeDefaultData i2 (initializeDefaultData i1 st).1).1)).2 = []) := by
  constructor
  · intro h
    apply initializeDefaultData_no_writes
    · rw [initializeDefaultData_fst]
      simp only [if_neg h]
      intro hc
      have hl := migrateAll_length st.menuItems
      rw [hc] at hl
      exact h (List.length_eq_zero.mp hl.symm)
    · rw [initializeDefaultData_fst]
      simp only [if_neg h]
      exact migrateAll_fixed _
    · exact initializeDefaultData_waiters_ne_nil i1 st
  · intro h
    have hst1 : (initializeDefaultData i1 st).1 =
        { menuItems := seedMenuItems i1,
          waiters := if st.waiters = [] then seedWaiters i1 else st.waiters } := by
      rw [initializeDefaultData_fst, if_pos h]
    have hm1 : ((initializeDefaultData i1 st).1).menuItems = seedMenuItems i1 := by
      rw [hst1]
    have hw1 : ((initializeDefaultData i1 st).1).waiters
        = if st.waiters = [] then seedWaiters i1 else st.waiters := by
      rw [hst1]
    have hwne : (if st.waiters = [] then seedWaiters i1 else st.waiters) ≠ [] := by
      by_cases hw : st.waiters = []
      · simp [hw, seedWaiters]
      · simp [hw]
    constructor
    · refine ⟨(migrateAll (seedMenuItems i1)).1, ?_⟩
      rw [initializeDefaultData_snd, hm1, hw1]
      rw [if_neg (seedMenuItems_ne_nil i1), if_neg hwne]
      simp [migrateAll_seed_flag i1]
    · have hm2 : ((initializeDefaultData i2 (initializeDefaultData i1 st).1).1).menuItems
          = (migrateAll (seedMenuItems i1)).1 := by
        rw [initializeDefaultData_fst]
        simp [hm1, seedMenuItems_ne_nil i1]
      apply initializeDefaultData_no_writes
      · rw [hm2]
        intro hc
        have hl := migrateAll_length (seedMenuItems i1)
        rw [hc] at hl
        exact (seedMenuItems_ne_nil i1) (List.length_eq_zero.mp hl.symm)
      · rw [hm2]
        exact migrateAll_fixed _
      · exact initializeDefaultData_waiters_ne_nil i2 _

/-- C1 counterexample: on an initially empty backend the first call
issues two saves (seeded menu items, seeded waiters) and the second call
still issues one save (the seeded records lack an `images` field), so
"at most one persisted write with the second call issuing zero writes"
fails in the seeding case. -/
theorem initializeDefaultData_seed_counterexample :
    ((initializeDefaultData ⟨"a", "b", "c", "d", "e"⟩ ⟨[], []⟩).2).length = 2
    ∧ ((initializeDefaultData ⟨"f", "g", "h", "i", "j"⟩
        ((initializeDefaultData ⟨"a", "b", "c", "d", "e"⟩ ⟨[], []⟩).1)).2).length
      = 1 := by
  decide

/-- Witness for `initializeDefaultData_repeat_writes`: a one-record
already-seeded backend for the migration branch, and the empty backend
for the seeding branch. -/
theorem initializeDefaultData_repeat_writes_witness :
    (initializeDefaultData ⟨"f", "g", "h", "i", "j"⟩
      (initializeDefaultData ⟨"a", "b", "c", "d", "e"⟩
        ⟨[{ id := "z", category := some "Cuero Artesanal" }],
         [{ id := "y", name := "Ana", active := true }]⟩).1).2 = []
    ∧ (∃ l, (initializeDefaultData ⟨"f", "g", "h", "i", "j"⟩
        (initializeDefaultData ⟨"a", "b", "c", "d", "e"⟩ ⟨[], []⟩).1).2
          = [SaveCall.menu_items l])
    ∧ (initializeDefaultData ⟨"k", "l", "m", "n", "o"⟩
        ((initializeDefaultData ⟨"f", "g", "h", "i", "j"⟩
          (initializeDefaultData ⟨"a", "b", "c", "d", "e"⟩ ⟨[], []⟩).1).1)).2 = [] := by
  refine ⟨?_, ?_, ?_⟩
  · exact (initializeDefaultData_repeat_writes
      ⟨[{ id := "z", category := some "Cuero Artesanal" }],
       [{ id := "y", name := "Ana", active := true }]⟩
      ⟨"a", "b", "c", "d", "e"⟩ ⟨"f", "g", "h", "i", "j"⟩
      ⟨"k", "l", "m", "n", "o"⟩).1 (by simp)
  · exact ((initializeDefaultData_repeat_writes ⟨[], []⟩
      ⟨"a", "b", "c", "d", "e"⟩ ⟨"f", "g", "h", "i", "j"⟩
      ⟨"k", "l", "m", "n", "o"⟩).2 rfl).1
  · exact ((initializeDefaultData_repeat_writes ⟨[], []⟩
      ⟨"a", "b", "c", "d", "e"⟩ ⟨"f", "g", "h", "i", "j"⟩
      ⟨"k", "l", "m", "n", "o"⟩).2 rfl).2
